import Mathlib

/-!
Shallow embedding of the booking/availability logic of the LastingTrip
hotel-booking backend, together with the user-login and coupon-creation
controllers, and proofs of the specification claims about them.

Sources embedded:
* `src/controllers/payment.controller.js` — `createBooking`, `getAvailability`
* `src/controllers/user.controllers.js`   — `login`, `loginGG`
* `src/unnamed/part_003`                   — coupon `create`

Modelling conventions:
* calendar dates are integers (day granularity, ordered comparison, exactly
  as the ORM compares date columns);
* JS numbers used as quantities/prices are integers (`Int`), since the code
  only adds, sums and compares them;
* a missing request field is `Option.none`; JS falsiness of `0` and `""` for
  required-field checks is modelled explicitly where the code relies on `!x`;
* the persistence collaborator is a `DB` value (lists of rows) threaded
  explicitly, and each controller also reports the list of collaborator
  calls it made, so frame conditions are provable.
-/

/-- A `Room` row: the fields the booking logic reads
(`Room.findOne` result; `room.quantity` is total inventory). -/
structure Room where
  id : Nat
  quantity : Int
  deriving Repr, DecidableEq

/-- A `Booking` row, with the fields `createBooking` persists. -/
structure Booking where
  room_id : Nat
  user_id : Nat
  check_in_date : Int
  check_out_date : Int
  total_price : Int
  status : Option String
  special_requests : Option String
  quantity : Int
  full_name : String
  hotel_id : Nat
  deriving Repr, DecidableEq

/-- The persistence collaborator's state: the rows the embedded
controllers read and write. -/
structure DB where
  rooms : List Room
  bookings : List Booking
  deriving Repr, DecidableEq

/-- `Room.findOne (where id = roomId)`. -/
def findRoom (db : DB) (roomId : Nat) : Option Room :=
  db.rooms.find? (fun r => r.id == roomId)

/-- Sum of `quantity` over the bookings satisfying a row predicate:
the `Booking.sum("quantity", where ...)` aggregate.  (The SQL aggregate
returns NULL on an empty row set and the callers coerce with `|| 0`;
here the empty sum is already `0`.) -/
def qsum (bs : List Booking) (p : Booking → Bool) : Int :=
  match bs with
  | [] => 0
  | b :: rest => (if p b then b.quantity else 0) + qsum rest p

/-- The overlap row-filter used by both `createBooking` and
`getAvailability`: `room_id = rid AND check_in_date < e AND
check_out_date > s`. -/
def overlapB (rid : Nat) (s e : Int) (b : Booking) : Bool :=
  b.room_id == rid && decide (b.check_in_date < e) && decide (s < b.check_out_date)

/-- `Booking.sum("quantity", where room_id = rid, check_in_date < e,
check_out_date > s)` with the caller's `|| 0` coercion folded in. -/
def bookedSum (bs : List Booking) (rid : Nat) (s e : Int) : Int :=
  qsum bs (overlapB rid s e)

/-- The availability value both controllers compute:
`room.quantity - (bookedQuantity || 0)`, `none` when the room does not
exist. -/
def availableQuantity (db : DB) (roomId : Nat) (s e : Int) : Option Int :=
  (findRoom db roomId).map (fun room => room.quantity - bookedSum db.bookings roomId s e)

/-- Modelled from the spec's words, for comparison with the code: the sum of
`quantity` over all Bookings B on the room with
`B.check_in_date < endDate AND B.check_out_date > startDate`. -/
def specOverlapSum (bs : List Booking) (roomId : Nat) (startDate endDate : Int) : Int :=
  ((bs.filter (fun b =>
      b.room_id == roomId &&
      decide (b.check_in_date < endDate) &&
      decide (startDate < b.check_out_date))).map (fun b => b.quantity)).sum

/-- The per-instant load on a room: sum of `quantity` over the bookings on
the room whose half-open interval contains the instant `t`. -/
def containsB (rid : Nat) (t : Int) (b : Booking) : Bool :=
  b.room_id == rid && decide (b.check_in_date ≤ t) && decide (t < b.check_out_date)

/-- Sum of `quantity` over all bookings on room `rid` whose interval
contains instant `t`. -/
def instSum (bs : List Booking) (rid : Nat) (t : Int) : Int :=
  qsum bs (containsB rid t)

lemma qsum_append (bs cs : List Booking) (p : Booking → Bool) :
    qsum (bs ++ cs) p = qsum bs p + qsum cs p := by
  induction bs with
  | nil => simp [qsum]
  | cons b rest ih => simp [qsum, ih]; ring

lemma qsum_eq_filter_map_sum (bs : List Booking) (p : Booking → Bool) :
    qsum bs p = ((bs.filter p).map (fun b => b.quantity)).sum := by
  induction bs with
  | nil => simp [qsum]
  | cons b rest ih =>
    by_cases h : p b
    · simp [qsum, h, List.filter_cons, ih]
    · simp [qsum, h, List.filter_cons, ih]

lemma bookedSum_eq_specOverlapSum (bs : List Booking) (rid : Nat) (s e : Int) :
    bookedSum bs rid s e = specOverlapSum bs rid s e := by
  unfold bookedSum specOverlapSum overlapB
  exact qsum_eq_filter_map_sum bs _

lemma qsum_mono (bs : List Booking) (p r : Booking → Bool)
    (himp : ∀ b ∈ bs, p b = true → r b = true)
    (hpos : ∀ b ∈ bs, r b = true → p b = false → 0 ≤ b.quantity) :
    qsum bs p ≤ qsum bs r := by
  induction bs with
  | nil => simp [qsum]
  | cons b rest ih =>
    have hrest : qsum rest p ≤ qsum rest r :=
      ih (fun x hx => himp x (List.mem_cons_of_mem _ hx))
         (fun x hx => hpos x (List.mem_cons_of_mem _ hx))
    simp only [qsum]
    by_cases hp : p b
    · have hr : r b = true := himp b (List.mem_cons_self _ _) hp
      simp only [hp, hr, if_true]
      omega
    · by_cases hr : r b
      · have hq : 0 ≤ b.quantity :=
          hpos b (List.mem_cons_self _ _) hr (by simp [hp])
        simp only [hp, hr, if_true, if_false]
        omega
      · simp only [hp, hr, if_false]
        omega

/-- The query parameters of `GET` availability
(`checkInDate, checkOutDate, roomId, quantity` from `req.query`;
`none` models an absent parameter — every present query-string value is
truthy here, as the code only checks `!x`). -/
structure AvailabilityQuery where
  roomId : Option Nat
  checkInDate : Option Int
  checkOutDate : Option Int
  quantity : Option Int
  deriving Repr, DecidableEq

/-- The response of `getAvailability`: an error response
(`res.status(400).json/send`) or `res.status(200).send` with the computed
`availableQuantity`. -/
inductive GAResp where
  | err (status : Nat) (message : String)
  | ok (availableQuantity : Int)
  deriving Repr, DecidableEq

/-- The HTTP status of a `getAvailability` response (success sends 200). -/
def GAResp.status : GAResp → Nat
  | .err s _ => s
  | .ok _ => 200

/-- `getAvailability` from `payment.controller.js`: presence check on the
four query fields, `Room.findOne`, overlap `Booking.sum`, then either the
"Not enough rooms" rejection or the availability number.  Pure read: the
`DB` is not changed (none is returned). -/
def getAvailability (db : DB) (q : AvailabilityQuery) : GAResp :=
  match q.roomId, q.checkInDate, q.checkOutDate, q.quantity with
  | some roomId, some checkInDate, some checkOutDate, some quantity =>
    match findRoom db roomId with
    | none => .err 400 "Room not found"
    | some room =>
      let bookedQuantity := bookedSum db.bookings roomId checkInDate checkOutDate
      let avail := room.quantity - bookedQuantity
      if avail < quantity then
        .err 400 "Not enough rooms available for the selected dates"
      else
        .ok avail
  | _, _, _, _ => .err 400 "Missing required fields"

/-- A persistence-collaborator call, recorded so that frame conditions
("no collaborator call was made") are provable. -/
inductive PersistCall where
  | roomFindOne (id : Nat)
  | bookingSum (roomId : Nat) (checkIn checkOut : Int)
  | bookingCreate (b : Booking)
  | couponCreate (code : String) (percent : Int) (begin_ end_ : Int)
  deriving Repr, DecidableEq

/-- The body of a `POST` booking request (`req.body`).  `none` models an
absent field; for the `!x` presence checks a present numeric `0` and a
present empty string are falsy, which `truthyNat`/`truthyInt`/`truthyStr`
capture. -/
structure BookingRequest where
  room_id : Option Nat
  user_id : Option Nat
  check_in_date : Option Int
  check_out_date : Option Int
  total_price : Option Int
  status : Option String
  special_requests : Option String
  quantity : Option Int
  full_name : Option String
  hotel_id : Option Nat
  deriving Repr, DecidableEq

/-- JS truthiness of an optional number field (falsy when absent or `0`). -/
def truthyInt : Option Int → Bool
  | none => false
  | some n => n != 0

/-- JS truthiness of an optional id field (falsy when absent or `0`). -/
def truthyNat : Option Nat → Bool
  | none => false
  | some n => n != 0

/-- JS truthiness of an optional string field (falsy when absent or empty). -/
def truthyStr : Option String → Bool
  | none => false
  | some s => s != ""

/-- The `createBooking` required-field presence check
(`!room_id || !user_id || ... || !hotel_id`; `status` and
`special_requests` are not required). -/
def bookingFieldsPresent (r : BookingRequest) : Bool :=
  truthyNat r.room_id && truthyNat r.user_id &&
  r.check_in_date.isSome && r.check_out_date.isSome &&
  truthyInt r.total_price && truthyInt r.quantity &&
  truthyStr r.full_name && truthyNat r.hotel_id

/-- The whole synchronous validation prefix of `createBooking`: field
presence, `check_in_date < check_out_date`, positive `total_price`,
positive `quantity`.  `createBooking` reaches its first collaborator call
exactly when this is `true`. -/
def createBookingValid (r : BookingRequest) : Bool :=
  bookingFieldsPresent r &&
  decide ((r.check_in_date.getD 0) < (r.check_out_date.getD 0)) &&
  decide (0 < (r.total_price.getD 0)) &&
  decide (0 < (r.quantity.getD 0))

/-- The outcome of `createBooking`: HTTP status, the error body when any,
the created row when any, the persistence state afterwards, and the
collaborator calls made. -/
structure CBResult where
  status : Nat
  error : Option String
  booking : Option Booking
  db : DB
  calls : List PersistCall
  deriving Repr, DecidableEq

/-- The row `Booking.create` persists: exactly the request's fields
(`status` and `special_requests` are passed through unvalidated). -/
def mkBookingRow (r : BookingRequest) : Booking :=
  { room_id := r.room_id.getD 0, user_id := r.user_id.getD 0,
    check_in_date := r.check_in_date.getD 0, check_out_date := r.check_out_date.getD 0,
    total_price := r.total_price.getD 0, status := r.status,
    special_requests := r.special_requests, quantity := r.quantity.getD 0,
    full_name := r.full_name.getD "", hotel_id := r.hotel_id.getD 0 }

/-- `createBooking` from `payment.controller.js`: four synchronous
validation checks (each short-circuiting with 400 before any collaborator
call), then `Room.findOne`, the overlap `Booking.sum`, the admission test
`(bookedQuantity || 0) + quantity > room.quantity`, and `Booking.create`
on success (201 with the new row). -/
def createBooking (db : DB) (r : BookingRequest) : CBResult :=
  if !bookingFieldsPresent r then
    { status := 400, error := some "Missing required fields",
      booking := none, db := db, calls := [] }
  else if (r.check_out_date.getD 0) ≤ (r.check_in_date.getD 0) then
    { status := 400, error := some "\x27check_in_date\x27 must be before \x27check_out_date\x27",
      booking := none, db := db, calls := [] }
  else if (r.total_price.getD 0) ≤ 0 then
    { status := 400, error := some "\x27total_price\x27 must be a positive number",
      booking := none, db := db, calls := [] }
  else if (r.quantity.getD 0) ≤ 0 then
    { status := 400, error := some "\x27quantity\x27 must be a positive number",
      booking := none, db := db, calls := [] }
  else
    let room_id := r.room_id.getD 0
    let check_in_date := r.check_in_date.getD 0
    let check_out_date := r.check_out_date.getD 0
    let quantity := r.quantity.getD 0
    match findRoom db room_id with
    | none =>
      { status := 400, error := some "Room not found",
        booking := none, db := db, calls := [.roomFindOne room_id] }
    | some room =>
      let bookedQuantity := bookedSum db.bookings room_id check_in_date check_out_date
      if room.quantity < bookedQuantity + quantity then
        { status := 400, error := some "Not enough rooms available for the selected dates",
          booking := none, db := db,
          calls := [.roomFindOne room_id, .bookingSum room_id check_in_date check_out_date] }
      else
        { status := 201, error := none, booking := some (mkBookingRow r),
          db := { db with bookings := db.bookings ++ [mkBookingRow r] },
          calls := [.roomFindOne room_id, .bookingSum room_id check_in_date check_out_date,
                    .bookingCreate (mkBookingRow r)] }

/-- A `User` row: the fields `login` reads (`password` holds the stored
bcrypt hash). -/
structure User where
  id : Nat
  name : String
  email : String
  password : String
  type : String
  deriving Repr, DecidableEq

/-- The payload object passed to `jwt.sign`.  `login` signs
`(email, type)` (no `id`); `loginGG` signs `(id, email, type)`. -/
structure TokenPayload where
  id : Option Nat
  email : String
  type : String
  deriving Repr, DecidableEq

/-- A token issued by the token collaborator (`jwt.sign`): the signed
payload and the `expiresIn` lifetime in seconds. -/
structure SignedToken where
  payload : TokenPayload
  expiresIn : Nat
  deriving Repr, DecidableEq

/-- The response of `login`: success carries the token and the echoed
user fields; failure carries the HTTP status and message. -/
inductive LoginResp where
  | success (token : SignedToken) (name : String) (type : String) (id : Nat)
  | failure (status : Nat) (message : String)
  deriving Repr, DecidableEq

/-- The HTTP status of a `login` response (success sends 200). -/
def LoginResp.status : LoginResp → Nat
  | .success _ _ _ _ => 200
  | .failure s _ => s

/-- `login` from `user.controllers.js`.  `compare` is the password-hashing
collaborator (`bcrypt.compareSync plain hash`).  Unknown email →
404 response; wrong password → 401; match → 200 with a token signed over
`(email, type)` and `expiresIn := 60 * 60`. -/
def login (compare : String → String → Bool) (users : List User)
    (email password : String) : LoginResp :=
  match users.find? (fun u => u.email == email) with
  | some user =>
    if compare password user.password then
      .success { payload := { id := none, email := user.email, type := user.type },
                 expiresIn := 60 * 60 }
        user.name user.type user.id
    else
      .failure 401 "dang nhap that bai, kiem tra lai mat khau"
  | none => .failure 404 "khong co nguoi dung nay"

/-- The `req.body` of `loginGG`: the already-authenticated Google user
object whose fields are signed into the token. -/
structure GGUser where
  id : Nat
  email : String
  type : String
  name : String
  deriving Repr, DecidableEq

/-- `loginGG` from `user.controllers.js`: unconditionally signs
`(id, email, type)` with `expiresIn := 60 * 60` and responds 200. -/
def loginGG (user : GGUser) : LoginResp :=
  .success { payload := { id := some user.id, email := user.email, type := user.type },
             expiresIn := 60 * 60 }
    user.name user.type user.id

/-- The body of the coupon `create` endpoint (`src/unnamed/part_003`).
`percent` is `none` when absent or not a number; `begin_`/`end_` are
`none` when absent or not parseable as dates (`isNaN(new Date(x))`),
which the code treats identically. -/
structure CouponReq where
  code : Option String
  percent : Option Int
  begin_ : Option Int
  end_ : Option Int
  deriving Repr, DecidableEq

/-- The outcome of the coupon `create` controller: HTTP status, error
body when any, and the collaborator calls made. -/
structure CouponResult where
  status : Nat
  error : Option String
  calls : List PersistCall
  deriving Repr, DecidableEq

/-- The synchronous validation prefix of the coupon `create` controller:
truthy `code`, numeric `percent` in (0, 100], both dates present and
parseable, and `begin < end`.  The controller reaches `Coupons.create`
exactly when this is `true`. -/
def couponValid (c : CouponReq) : Bool :=
  truthyStr c.code &&
  (match c.percent with
   | none => false
   | some p => decide (0 < p) && decide (p ≤ 100)) &&
  c.begin_.isSome && c.end_.isSome &&
  decide ((c.begin_.getD 0) < (c.end_.getD 0))

/-- Coupon `create` from `src/unnamed/part_003`: four validation checks,
each short-circuiting with 400 before the single `Coupons.create` call;
201 on success. -/
def couponCreate (c : CouponReq) : CouponResult :=
  if !truthyStr c.code then
    { status := 400, error := some "\x27code\x27 is required and must not be null.", calls := [] }
  else if (match c.percent with
           | none => true
           | some p => decide (p ≤ 0) || decide (100 < p)) then
    { status := 400, error := some "\x27percent\x27 must be a number between 1 and 100.", calls := [] }
  else if !(c.begin_.isSome && c.end_.isSome) then
    { status := 400, error := some "\x27begin\x27 and \x27end\x27 must be valid dates.", calls := [] }
  else if (c.end_.getD 0) ≤ (c.begin_.getD 0) then
    { status := 400, error := some "\x27begin\x27 date must be before \x27end\x27 date.", calls := [] }
  else
    { status := 201, error := none,
      calls := [.couponCreate (c.code.getD "") (c.percent.getD 0)
                  (c.begin_.getD 0) (c.end_.getD 0)] }

lemma qsum_eq_zero_of_all_false (bs : List Booking) (p : Booking → Bool)
    (h : ∀ b ∈ bs, p b = false) : qsum bs p = 0 := by
  induction bs with
  | nil => rfl
  | cons b rest ih =>
    have hb : p b = false := h b (List.mem_cons_self _ _)
    have := ih (fun x hx => h x (List.mem_cons_of_mem _ hx))
    simp [qsum, hb, this]

/-- C1: for an existing Room with total inventory `Q`, the availability
value the code computes equals `Q` minus the spec's overlap sum (the sum
of `quantity` over bookings on the room with `check_in_date < endDate`
and `check_out_date > startDate`), and equals `Q` when no booking
overlaps the queried interval. -/
theorem availableQuantity_formula_C1 (db : DB) (roomId : Nat) (s e : Int) (room : Room)
    (hroom : findRoom db roomId = some room) :
    availableQuantity db roomId s e
        = some (room.quantity - specOverlapSum db.bookings roomId s e) ∧
    ((∀ b ∈ db.bookings, overlapB roomId s e b = false) →
      availableQuantity db roomId s e = some room.quantity) := by
  constructor
  · simp [availableQuantity, hroom, bookedSum_eq_specOverlapSum]
  · intro hno
    simp [availableQuantity, hroom, bookedSum, qsum_eq_zero_of_all_false _ _ hno]

/-- A room with inventory 10 and one booking of 3 units on `[0, 4)`. -/
def dbC1 : DB :=
  { rooms := [{ id := 1, quantity := 10 }],
    bookings := [{ room_id := 1, user_id := 2, check_in_date := 0, check_out_date := 4,
                   total_price := 100, status := none, special_requests := none,
                   quantity := 3, full_name := "g", hotel_id := 1 }] }

/-- Witness for C1 at a concrete state: the booking on `[0, 4)` does not
overlap the query `[4, 9)`, so the full inventory 10 is available. -/
theorem availableQuantity_formula_C1_witness :
    availableQuantity dbC1 1 4 9 = some 10 :=
  (availableQuantity_formula_C1 dbC1 1 4 9 { id := 1, quantity := 10 } (by decide)).2 (by decide)

/-- C4: appending a booking whose `check_out_date` equals the query's
`startDate`, or whose `check_in_date` equals the query's `endDate`,
leaves `availableQuantity` unchanged. -/
theorem boundary_booking_no_effect_C4 (db : DB) (b : Booking) (roomId : Nat) (s e : Int)
    (hb : b.check_out_date = s ∨ b.check_in_date = e) :
    availableQuantity { db with bookings := db.bookings ++ [b] } roomId s e
      = availableQuantity db roomId s e := by
  have hfalse : overlapB roomId s e b = false := by
    rcases hb with h | h <;> simp [overlapB, h]
  have hsum : bookedSum (db.bookings ++ [b]) roomId s e = bookedSum db.bookings roomId s e := by
    unfold bookedSum
    rw [qsum_append]
    simp [qsum, hfalse]
  simp [availableQuantity, findRoom, hsum]

/-- Witness for C4 at a concrete state: adding a booking on `[2, 4)` to
`dbC1` does not change the availability for the query `[4, 9)`. -/
theorem boundary_booking_no_effect_C4_witness :
    availableQuantity
        { dbC1 with bookings := dbC1.bookings ++
            [{ room_id := 1, user_id := 3, check_in_date := 2, check_out_date := 4,
               total_price := 50, status := none, special_requests := none,
               quantity := 2, full_name := "h", hotel_id := 1 }] } 1 4 9
      = availableQuantity dbC1 1 4 9 :=
  boundary_booking_no_effect_C4 dbC1
    { room_id := 1, user_id := 3, check_in_date := 2, check_out_date := 4,
      total_price := 50, status := none, special_requests := none,
      quantity := 2, full_name := "h", hotel_id := 1 } 1 4 9 (Or.inl rfl)

/-- C7: `getAvailability` requires the `quantity` query parameter
(400 "Missing required fields" when absent), responds
400 "Not enough rooms available for the selected dates" when the computed
availability is below the requested quantity, and returns the integer
availability with status 200 exactly when it is at least the requested
quantity. -/
theorem getAvailability_quantity_gate_C7 (db : DB) (q : AvailabilityQuery) :
    (q.quantity = none → getAvailability db q = .err 400 "Missing required fields") ∧
    (∀ roomId s e qty room,
      q = { roomId := some roomId, checkInDate := some s,
            checkOutDate := some e, quantity := some qty } →
      findRoom db roomId = some room →
      ((room.quantity - bookedSum db.bookings roomId s e < qty →
          getAvailability db q = .err 400 "Not enough rooms available for the selected dates") ∧
       (qty ≤ room.quantity - bookedSum db.bookings roomId s e →
          getAvailability db q = .ok (room.quantity - bookedSum db.bookings roomId s e)))) := by
  obtain ⟨r?, a?, b?, q?⟩ := q
  constructor
  · intro h
    subst h
    cases r? <;> cases a? <;> cases b? <;> rfl
  · intro roomId s e qty room heq hroom
    cases heq
    constructor
    · intro hlt
      simp [getAvailability, hroom, hlt]
    · intro hge
      simp [getAvailability, hroom, not_lt.mpr hge]

/-- Witness for C7 at a concrete state: on `dbC1`, a query of quantity 20
over `[4, 9)` is refused ("Not enough rooms"), a query of quantity 2 is
answered with the availability 10, and a query without `quantity` is
refused as missing fields. -/
theorem getAvailability_quantity_gate_C7_witness :
    getAvailability dbC1 { roomId := some 1, checkInDate := some 4,
                           checkOutDate := some 9, quantity := some 20 }
        = .err 400 "Not enough rooms available for the selected dates" ∧
    getAvailability dbC1 { roomId := some 1, checkInDate := some 4,
                           checkOutDate := some 9, quantity := some 2 }
        = .ok 10 ∧
    getAvailability dbC1 { roomId := some 1, checkInDate := some 4,
                           checkOutDate := some 9, quantity := none }
        = .err 400 "Missing required fields" := by
  refine ⟨?_, ?_, ?_⟩
  · exact ((getAvailability_quantity_gate_C7 dbC1 _).2 1 4 9 20
      { id := 1, quantity := 10 } rfl (by decide)).1 (by decide)
  · have h := ((getAvailability_quantity_gate_C7 dbC1 _).2 1 4 9 2
      { id := 1, quantity := 10 } rfl (by decide)).2 (by decide)
    simpa using h
  · exact (getAvailability_quantity_gate_C7 dbC1 _).1 rfl

/-- An empty persistence state: no rooms, no bookings. -/
def dbEmpty : DB := { rooms := [], bookings := [] }

/-- A field-complete availability query for room 1 over `[0, 5)`. -/
def qMissingRoom : AvailabilityQuery :=
  { roomId := some 1, checkInDate := some 0, checkOutDate := some 5, quantity := some 1 }

/-- A field-complete, well-formed booking request for room 1 over `[0, 5)`. -/
def rMissingRoom : BookingRequest :=
  { room_id := some 1, user_id := some 1, check_in_date := some 0,
    check_out_date := some 5, total_price := some 100, status := none,
    special_requests := none, quantity := some 1, full_name := some "g",
    hotel_id := some 1 }

/-- C5 counterexample: with no Room 1, both `getAvailability` and
`createBooking` respond with HTTP status 400 ("Room not found"), not the
404 the claim requires via the NotFound → 404 taxonomy. -/
theorem room_not_found_C5_cex :
    getAvailability dbEmpty qMissingRoom = .err 400 "Room not found" ∧
    (getAvailability dbEmpty qMissingRoom).status ≠ 404 ∧
    (createBooking dbEmpty rMissingRoom).status = 400 ∧
    (createBooking dbEmpty rMissingRoom).error = some "Room not found" ∧
    (createBooking dbEmpty rMissingRoom).status ≠ 404 := by
  refine ⟨rfl, by decide, rfl, rfl, by decide⟩

lemma createBookingValid_split (r : BookingRequest) (h : createBookingValid r = true) :
    bookingFieldsPresent r = true ∧ r.check_in_date.getD 0 < r.check_out_date.getD 0 ∧
    0 < r.total_price.getD 0 ∧ 0 < r.quantity.getD 0 := by
  simpa [createBookingValid, and_assoc] using h

lemma createBooking_room_missing (db : DB) (r : BookingRequest)
    (hvalid : createBookingValid r = true)
    (hmiss : findRoom db (r.room_id.getD 0) = none) :
    createBooking db r =
      { status := 400, error := some "Room not found", booking := none, db := db,
        calls := [.roomFindOne (r.room_id.getD 0)] } := by
  obtain ⟨h1, h2, h3, h4⟩ := createBookingValid_split r hvalid
  simp [createBooking, h1, hmiss, not_le.mpr h2, not_le.mpr h3, not_le.mpr h4]

lemma createBooking_reject (db : DB) (r : BookingRequest) (room : Room)
    (hvalid : createBookingValid r = true)
    (hroom : findRoom db (r.room_id.getD 0) = some room)
    (hover : room.quantity <
      bookedSum db.bookings (r.room_id.getD 0) (r.check_in_date.getD 0) (r.check_out_date.getD 0)
        + r.quantity.getD 0) :
    createBooking db r =
      { status := 400, error := some "Not enough rooms available for the selected dates",
        booking := none, db := db,
        calls := [.roomFindOne (r.room_id.getD 0),
                  .bookingSum (r.room_id.getD 0) (r.check_in_date.getD 0) (r.check_out_date.getD 0)] } := by
  obtain ⟨h1, h2, h3, h4⟩ := createBookingValid_split r hvalid
  simp [createBooking, h1, hroom, hover, not_le.mpr h2, not_le.mpr h3, not_le.mpr h4]

lemma createBooking_accept (db : DB) (r : BookingRequest) (room : Room)
    (hvalid : createBookingValid r = true)
    (hroom : findRoom db (r.room_id.getD 0) = some room)
    (hover : bookedSum db.bookings (r.room_id.getD 0) (r.check_in_date.getD 0) (r.check_out_date.getD 0)
        + r.quantity.getD 0 ≤ room.quantity) :
    createBooking db r =
      { status := 201, error := none, booking := some (mkBookingRow r),
        db := { db with bookings := db.bookings ++ [mkBookingRow r] },
        calls := [.roomFindOne (r.room_id.getD 0),
                  .bookingSum (r.room_id.getD 0) (r.check_in_date.getD 0) (r.check_out_date.getD 0),
                  .bookingCreate (mkBookingRow r)] } := by
  obtain ⟨h1, h2, h3, h4⟩ := createBookingValid_split r hvalid
  simp [createBooking, h1, hroom, not_lt.mpr hover, not_le.mpr h2, not_le.mpr h3, not_le.mpr h4]

/-- C5 amended: when the referenced Room does not exist, `getAvailability`
and `createBooking` both fail with HTTP status 400 and body
"Room not found" (not 404), and no Booking row is created (the state is
unchanged). -/
theorem room_not_found_C5_amended (db : DB) (q : AvailabilityQuery) (r : BookingRequest)
    (roomId : Nat) (s e qty : Int)
    (hq : q = { roomId := some roomId, checkInDate := some s,
                checkOutDate := some e, quantity := some qty })
    (hmiss : findRoom db roomId = none)
    (hvalid : createBookingValid r = true)
    (hmiss2 : findRoom db (r.room_id.getD 0) = none) :
    getAvailability db q = .err 400 "Room not found" ∧
    createBooking db r =
      { status := 400, error := some "Room not found", booking := none, db := db,
        calls := [.roomFindOne (r.room_id.getD 0)] } := by
  subst hq
  exact ⟨by simp [getAvailability, hmiss], createBooking_room_missing db r hvalid hmiss2⟩

/-- Witness for the amended C5 at the concrete empty state. -/
theorem room_not_found_C5_amended_witness :
    getAvailability dbEmpty qMissingRoom = .err 400 "Room not found" ∧
    createBooking dbEmpty rMissingRoom =
      { status := 400, error := some "Room not found", booking := none, db := dbEmpty,
        calls := [.roomFindOne 1] } :=
  room_not_found_C5_amended dbEmpty qMissingRoom rMissingRoom 1 0 5 1 rfl
    (by decide) (by decide) (by decide)

/-- A state with Room 1 of inventory 10 and no bookings. -/
def dbOneRoom : DB := { rooms := [{ id := 1, quantity := 10 }], bookings := [] }

/-- An availability query whose start date (5) is after its end date (3). -/
def qBackwards : AvailabilityQuery :=
  { roomId := some 1, checkInDate := some 5, checkOutDate := some 3, quantity := some 1 }

/-- C6 counterexample: `getAvailability` performs no date-ordering check —
with `startDate = 5 ≥ endDate = 3` it still answers 200 with an
availability number, instead of failing with InvalidInput/400 as the
claim requires. -/
theorem dates_validation_C6_cex :
    getAvailability dbOneRoom qBackwards = .ok 10 ∧
    (getAvailability dbOneRoom qBackwards).status = 200 := ⟨rfl, rfl⟩

/-- C6 amended: `getAvailability` checks only presence of its four query
fields (any missing one → 400 "Missing required fields" and no
availability result) and performs no date-ordering check; the ordering
precondition is enforced only by `createBooking`, which rejects
`check_in_date ≥ check_out_date` with 400 and creates no Booking. -/
theorem dates_validation_C6_amended (db : DB) (q : AvailabilityQuery) (r : BookingRequest)
    (hq : q.roomId = none ∨ q.checkInDate = none ∨ q.checkOutDate = none ∨ q.quantity = none)
    (hpres : bookingFieldsPresent r = true)
    (hord : r.check_out_date.getD 0 ≤ r.check_in_date.getD 0) :
    getAvailability db q = .err 400 "Missing required fields" ∧
    createBooking db r =
      { status := 400,
        error := some "\x27check_in_date\x27 must be before \x27check_out_date\x27",
        booking := none, db := db, calls := [] } := by
  constructor
  · obtain ⟨ro, ci, co, qt⟩ := q
    rcases hq with h | h | h | h <;> subst h <;>
      first
        | (cases ci <;> cases co <;> cases qt <;> rfl)
        | (cases ro <;> cases co <;> cases qt <;> rfl)
        | (cases ro <;> cases ci <;> cases qt <;> rfl)
        | (cases ro <;> cases ci <;> cases co <;> rfl)
  · simp [createBooking, hpres, hord]

/-- A booking request for room 1 whose check-in (5) is after its
check-out (3). -/
def rBackwards : BookingRequest :=
  { room_id := some 1, user_id := some 1, check_in_date := some 5,
    check_out_date := some 3, total_price := some 100, status := none,
    special_requests := none, quantity := some 1, full_name := some "g",
    hotel_id := some 1 }

/-- Witness for the amended C6 at concrete inputs. -/
theorem dates_validation_C6_amended_witness :
    getAvailability dbOneRoom
        { roomId := some 1, checkInDate := some 0, checkOutDate := some 5, quantity := none }
      = .err 400 "Missing required fields" ∧
    createBooking dbOneRoom rBackwards =
      { status := 400,
        error := some "\x27check_in_date\x27 must be before \x27check_out_date\x27",
        booking := none, db := dbOneRoom, calls := [] } :=
  dates_validation_C6_amended dbOneRoom _ rBackwards
    (Or.inr (Or.inr (Or.inr rfl))) (by decide) (by decide)

/-- C2: for a field-valid booking request on an existing Room, if the
requested quantity exceeds the available quantity for the requested
interval the request is rejected with
"Not enough rooms available for the selected dates" and the persistence
state is unchanged; otherwise exactly one new Booking row holding the
request's fields (`mkBookingRow r`) is appended and returned with 201. -/
theorem createBooking_admission_C2 (db : DB) (r : BookingRequest) (avail : Int)
    (hvalid : createBookingValid r = true)
    (hav : availableQuantity db (r.room_id.getD 0)
             (r.check_in_date.getD 0) (r.check_out_date.getD 0) = some avail) :
    (avail < r.quantity.getD 0 →
      createBooking db r =
        { status := 400, error := some "Not enough rooms available for the selected dates",
          booking := none, db := db,
          calls := [.roomFindOne (r.room_id.getD 0),
                    .bookingSum (r.room_id.getD 0) (r.check_in_date.getD 0) (r.check_out_date.getD 0)] }) ∧
    (r.quantity.getD 0 ≤ avail →
      createBooking db r =
        { status := 201, error := none, booking := some (mkBookingRow r),
          db := { db with bookings := db.bookings ++ [mkBookingRow r] },
          calls := [.roomFindOne (r.room_id.getD 0),
                    .bookingSum (r.room_id.getD 0) (r.check_in_date.getD 0) (r.check_out_date.getD 0),
                    .bookingCreate (mkBookingRow r)] }) := by
  obtain ⟨room, hroom, hEq⟩ :
      ∃ room, findRoom db (r.room_id.getD 0) = some room ∧
        room.quantity - bookedSum db.bookings (r.room_id.getD 0)
          (r.check_in_date.getD 0) (r.check_out_date.getD 0) = avail := by
    unfold availableQuantity at hav
    cases hfr : findRoom db (r.room_id.getD 0) with
    | none => rw [hfr] at hav; exact Option.noConfusion hav
    | some room =>
      rw [hfr] at hav
      simp only [Option.map_some', Option.some.injEq] at hav
      exact ⟨room, rfl, hav⟩
  constructor
  · intro hlt
    exact createBooking_reject db r room hvalid hroom (by omega)
  · intro hge
    exact createBooking_accept db r room hvalid hroom (by omega)

/-- A field-valid request for 8 units of room 1 over `[2, 6)`. -/
def rAskEight : BookingRequest :=
  { room_id := some 1, user_id := some 2, check_in_date := some 2,
    check_out_date := some 6, total_price := some 100, status := none,
    special_requests := none, quantity := some 8, full_name := some "g",
    hotel_id := some 1 }

/-- The same request asking for 7 units. -/
def rAskSeven : BookingRequest := { rAskEight with quantity := some 7 }

/-- Witness for C2 on `dbC1` (inventory 10, 3 units booked on `[0, 4)`,
so 7 are available on `[2, 6)`): asking 8 is rejected with the state
unchanged, asking 7 appends exactly the request's row. -/
theorem createBooking_admission_C2_witness :
    createBooking dbC1 rAskEight =
      { status := 400, error := some "Not enough rooms available for the selected dates",
        booking := none, db := dbC1,
        calls := [.roomFindOne 1, .bookingSum 1 2 6] } ∧
    createBooking dbC1 rAskSeven =
      { status := 201, error := none, booking := some (mkBookingRow rAskSeven),
        db := { dbC1 with bookings := dbC1.bookings ++ [mkBookingRow rAskSeven] },
        calls := [.roomFindOne 1, .bookingSum 1 2 6, .bookingCreate (mkBookingRow rAskSeven)] } :=
  ⟨(createBooking_admission_C2 dbC1 rAskEight 7 (by decide) (by decide)).1 (by decide),
   (createBooking_admission_C2 dbC1 rAskSeven 7 (by decide) (by decide)).2 (by decide)⟩

lemma createBooking_invalid (db : DB) (r : BookingRequest)
    (h : createBookingValid r = false) :
    (createBooking db r).status = 400 ∧ (createBooking db r).db = db ∧
    (createBooking db r).calls = [] ∧ (createBooking db r).booking = none := by
  by_cases h1 : bookingFieldsPresent r
  · by_cases h2 : r.check_out_date.getD 0 ≤ r.check_in_date.getD 0
    · simp [createBooking, h1, h2]
    · by_cases h3 : r.total_price.getD 0 ≤ 0
      · simp [createBooking, h1, h2, h3]
      · by_cases h4 : r.quantity.getD 0 ≤ 0
        · simp [createBooking, h1, h2, h3, h4]
        · exfalso
          have hv : createBookingValid r = true := by
            simp [createBookingValid, h1]
            omega
          rw [hv] at h
          exact Bool.noConfusion h
  · simp [createBooking, h1]

lemma couponCreate_invalid (c : CouponReq) (h : couponValid c = false) :
    (couponCreate c).status = 400 ∧ (couponCreate c).calls = [] := by
  by_cases h1 : truthyStr c.code
  · by_cases h2 : (match c.percent with
                   | none => true
                   | some p => decide (p ≤ 0) || decide (100 < p)) = true
    · simp [couponCreate, h1, h2]
    · by_cases h3 : c.begin_.isSome && c.end_.isSome
      · by_cases h4 : c.end_.getD 0 ≤ c.begin_.getD 0
        · simp [couponCreate, h1, h2, h3, h4]
        · exfalso
          have hv : couponValid c = true := by
            simp only [couponValid, h1, Bool.true_and]
            cases hp : c.percent with
            | none => rw [hp] at h2; exact absurd rfl h2
            | some p =>
              rw [hp] at h2
              simp only [decide_eq_true_eq, Bool.or_eq_true, not_or] at h2
              push_neg at h2
              simp only [Bool.and_eq_true] at h3
              simp [h3.1, h3.2, decide_eq_true_eq]
              omega
          rw [hv] at h
          exact Bool.noConfusion h
      · simp [couponCreate, h1, h2, h3]
  · simp [couponCreate, h1]

/-- C8: a request failing field validation is answered 400 with no
persistence-collaborator call made and the persistence state unchanged —
shown for `createBooking` and for the coupon `create` controller. -/
theorem validation_short_circuits_C8 (db : DB) (r : BookingRequest) (c : CouponReq)
    (hr : createBookingValid r = false) (hc : couponValid c = false) :
    ((createBooking db r).status = 400 ∧ (createBooking db r).calls = [] ∧
     (createBooking db r).db = db ∧ (createBooking db r).booking = none) ∧
    ((couponCreate c).status = 400 ∧ (couponCreate c).calls = []) := by
  obtain ⟨ha, hb, hcs, hd⟩ := createBooking_invalid db r hr
  exact ⟨⟨ha, hcs, hb, hd⟩, couponCreate_invalid c hc⟩

/-- A booking request with every field absent. -/
def rAllMissing : BookingRequest :=
  { room_id := none, user_id := none, check_in_date := none, check_out_date := none,
    total_price := none, status := none, special_requests := none, quantity := none,
    full_name := none, hotel_id := none }

/-- A coupon request with every field absent. -/
def cAllMissing : CouponReq := { code := none, percent := none, begin_ := none, end_ := none }

/-- Witness for C8 at concrete invalid requests. -/
theorem validation_short_circuits_C8_witness :
    ((createBooking dbC1 rAllMissing).status = 400 ∧ (createBooking dbC1 rAllMissing).calls = [] ∧
     (createBooking dbC1 rAllMissing).db = dbC1 ∧ (createBooking dbC1 rAllMissing).booking = none) ∧
    ((couponCreate cAllMissing).status = 400 ∧ (couponCreate cAllMissing).calls = []) :=
  validation_short_circuits_C8 dbC1 rAllMissing cAllMissing (by decide) (by decide)

/-- The token of a successful login response, when there is one. -/
def LoginResp.tokenOf : LoginResp → Option SignedToken
  | .success tok _ _ _ => some tok
  | .failure _ _ => none

/-- A concrete Google-login body. -/
def ggC9 : GGUser := { id := 7, email := "a@b.c", type := "user", name := "n" }

/-- The token `loginGG ggC9` issues. -/
def tokC9 : SignedToken :=
  { payload := { id := some 7, email := "a@b.c", type := "user" }, expiresIn := 60 * 60 }

/-- C9 counterexample: the token issued by the Google login carries `id`
in its payload in addition to email and type, so its payload is not
exactly the claimed pair. -/
theorem token_payload_C9_cex :
    (loginGG ggC9).tokenOf = some tokC9 ∧ tokC9.payload.id ≠ none :=
  ⟨rfl, by decide⟩

/-- C9 amended: every token issued on successful login has a one-hour
expiry (`expiresIn = 60 * 60` seconds); the password login signs exactly
the pair of the user's email and type (no id), while the Google login
additionally signs the user's id. -/
theorem token_payload_C9_amended (compare : String → String → Bool) (users : List User)
    (email password : String) (user : User) (ggUser : GGUser)
    (hfind : users.find? (fun u => u.email == email) = some user)
    (hcmp : compare password user.password = true) :
    login compare users email password =
      .success { payload := { id := none, email := user.email, type := user.type },
                 expiresIn := 60 * 60 } user.name user.type user.id ∧
    loginGG ggUser =
      .success { payload := { id := some ggUser.id, email := ggUser.email, type := ggUser.type },
                 expiresIn := 60 * 60 } ggUser.name ggUser.type ggUser.id := by
  constructor
  · simp [login, hfind, hcmp]
  · rfl

/-- A one-user store for the login witnesses. -/
def usersW : List User :=
  [{ id := 1, name := "n", email := "a@b.c", password := "hashpw", type := "user" }]

/-- The password-hashing collaborator of the witnesses: the stored "hash"
is the plain password itself. -/
def compareW (plain hash : String) : Bool := plain == hash

/-- Witness for the amended C9 at concrete inputs. -/
theorem token_payload_C9_amended_witness :
    login compareW usersW "a@b.c" "hashpw" =
      .success { payload := { id := none, email := "a@b.c", type := "user" },
                 expiresIn := 60 * 60 } "n" "user" 1 ∧
    loginGG ggC9 =
      .success { payload := { id := some 7, email := "a@b.c", type := "user" },
                 expiresIn := 60 * 60 } "n" "user" 7 :=
  token_payload_C9_amended compareW usersW "a@b.c" "hashpw"
    { id := 1, name := "n", email := "a@b.c", password := "hashpw", type := "user" }
    ggC9 (by decide) (by decide)

/-- C10 counterexample: a login whose email matches no user is answered
with HTTP status 404, not the 401 the claim requires for every
bad-credentials attempt. -/
theorem bad_credentials_C10_cex :
    login compareW [] "x@y.z" "pw" = .failure 404 "khong co nguoi dung nay" ∧
    (login compareW [] "x@y.z" "pw").status ≠ 401 :=
  ⟨rfl, by decide⟩

/-- C10 amended: a wrong password for an existing user is answered
401; an email matching no user is answered 404 (NotFound), not 401. -/
theorem bad_credentials_C10_amended (compare : String → String → Bool) (users : List User)
    (email password : String) :
    (∀ user, users.find? (fun u => u.email == email) = some user →
      compare password user.password = false →
      login compare users email password =
        .failure 401 "dang nhap that bai, kiem tra lai mat khau") ∧
    (users.find? (fun u => u.email == email) = none →
      login compare users email password = .failure 404 "khong co nguoi dung nay") := by
  constructor
  · intro user hfind hcmp
    simp [login, hfind, hcmp]
  · intro hnone
    simp [login, hnone]

/-- Witness for the amended C10 at concrete inputs. -/
theorem bad_credentials_C10_amended_witness :
    login compareW usersW "a@b.c" "wrong" =
      .failure 401 "dang nhap that bai, kiem tra lai mat khau" ∧
    login compareW usersW "x@y.z" "pw" =
      .failure 404 "khong co nguoi dung nay" :=
  ⟨(bad_credentials_C10_amended compareW usersW "a@b.c" "wrong").1
      { id := 1, name := "n", email := "a@b.c", password := "hashpw", type := "user" }
      (by decide) (by decide),
   (bad_credentials_C10_amended compareW usersW "x@y.z" "pw").2 (by decide)⟩

/-- `admitBooking` as a state transformer: the persistence state after one
`createBooking` request. -/
def applyBooking (db : DB) (r : BookingRequest) : DB := (createBooking db r).db

/-- The state after a sequence of sequentially executed `createBooking`
requests (each admission check completing before the next begins). -/
def applyBookings (db : DB) (rs : List BookingRequest) : DB :=
  rs.foldl applyBooking db

lemma createBooking_db_cases (db : DB) (r : BookingRequest) :
    (createBooking db r).db = db ∨
    (0 < (mkBookingRow r).quantity ∧
     ∃ room, findRoom db (mkBookingRow r).room_id = some room ∧
       bookedSum db.bookings (mkBookingRow r).room_id
           (mkBookingRow r).check_in_date (mkBookingRow r).check_out_date
         + (mkBookingRow r).quantity ≤ room.quantity ∧
       (createBooking db r).db = { db with bookings := db.bookings ++ [mkBookingRow r] }) := by
  by_cases hv : createBookingValid r = true
  · obtain ⟨_, _, _, h4⟩ := createBookingValid_split r hv
    cases hfr : findRoom db (r.room_id.getD 0) with
    | none =>
      left
      rw [createBooking_room_missing db r hv hfr]
    | some room =>
      by_cases hov : room.quantity <
          bookedSum db.bookings (r.room_id.getD 0)
            (r.check_in_date.getD 0) (r.check_out_date.getD 0) + r.quantity.getD 0
      · left
        rw [createBooking_reject db r room hv hfr hov]
      · right
        refine ⟨h4, room, hfr, ?_, ?_⟩
        · show bookedSum db.bookings (r.room_id.getD 0)
              (r.check_in_date.getD 0) (r.check_out_date.getD 0)
              + r.quantity.getD 0 ≤ room.quantity
          omega
        · rw [createBooking_accept db r room hv hfr (by omega)]
  · left
    exact (createBooking_invalid db r (by simpa using hv)).2.1

lemma instSum_le_bookedSum (bs : List Booking) (rid : Nat) (s e t : Int)
    (hst : s ≤ t) (hte : t < e)
    (hpos : ∀ b ∈ bs, b.room_id = rid → 0 < b.quantity) :
    instSum bs rid t ≤ bookedSum bs rid s e := by
  apply qsum_mono
  · intro b _ hb
    simp only [containsB, Bool.and_eq_true, beq_iff_eq, decide_eq_true_eq] at hb
    simp only [overlapB, Bool.and_eq_true, beq_iff_eq, decide_eq_true_eq]
    exact ⟨⟨hb.1.1, by omega⟩, by omega⟩
  · intro b hmem hb _
    simp only [overlapB, Bool.and_eq_true, beq_iff_eq, decide_eq_true_eq] at hb
    exact le_of_lt (hpos b hmem hb.1.1)

lemma applyBooking_preserves (room : Room) (db : DB) (r : BookingRequest)
    (hroom : findRoom db room.id = some room)
    (hpos : ∀ b ∈ db.bookings, b.room_id = room.id → 0 < b.quantity)
    (hinv : ∀ t : Int, instSum db.bookings room.id t ≤ room.quantity) :
    findRoom (applyBooking db r) room.id = some room ∧
    (∀ b ∈ (applyBooking db r).bookings, b.room_id = room.id → 0 < b.quantity) ∧
    (∀ t : Int, instSum (applyBooking db r).bookings room.id t ≤ room.quantity) := by
  unfold applyBooking
  rcases createBooking_db_cases db r with hdb | ⟨hq, room', hfr, hcap, hdb⟩
  · rw [hdb]
    exact ⟨hroom, hpos, hinv⟩
  · rw [hdb]
    refine ⟨hroom, ?_, ?_⟩
    · intro b hb hbr
      rcases List.mem_append.mp hb with hold | hnew
      · exact hpos b hold hbr
      · rw [List.mem_singleton.mp hnew]
        exact hq
    · intro t
      have hsplit : instSum (db.bookings ++ [mkBookingRow r]) room.id t
          = instSum db.bookings room.id t
            + (if containsB room.id t (mkBookingRow r) then (mkBookingRow r).quantity else 0) := by
        unfold instSum
        rw [qsum_append]
        simp [qsum]
      rw [hsplit]
      by_cases hc : containsB room.id t (mkBookingRow r)
      · have hc' := hc
        simp only [containsB, Bool.and_eq_true, beq_iff_eq, decide_eq_true_eq] at hc'
        obtain ⟨⟨hrid, hin⟩, hout⟩ := hc'
        rw [hrid] at hfr hcap
        rw [hroom] at hfr
        have hroomEq : room' = room := by
          injection hfr.symm
        rw [hroomEq] at hcap
        have hle : instSum db.bookings room.id t
            ≤ bookedSum db.bookings room.id
                (mkBookingRow r).check_in_date (mkBookingRow r).check_out_date :=
          instSum_le_bookedSum db.bookings room.id
            (mkBookingRow r).check_in_date (mkBookingRow r).check_out_date t hin hout hpos
        rw [if_pos hc]
        omega
      · rw [if_neg hc]
        have := hinv t
        omega

/-- C3: for a Room R present in the state, starting from a state whose
bookings on R all have positive quantity (the Booking data-model
invariant) and whose per-instant booked load on R is at most R.quantity,
any sequence of sequentially executed `createBooking` admissions keeps
the booked load on R at or below R.quantity at every instant. -/
theorem sequential_admission_invariant_C3 (room : Room) (db : DB)
    (rs : List BookingRequest)
    (hroom : findRoom db room.id = some room)
    (hpos : ∀ b ∈ db.bookings, b.room_id = room.id → 0 < b.quantity)
    (hinv : ∀ t : Int, instSum db.bookings room.id t ≤ room.quantity) :
    ∀ t : Int, instSum (applyBookings db rs).bookings room.id t ≤ room.quantity := by
  induction rs generalizing db with
  | nil => simpa [applyBookings] using hinv
  | cons r rest ih =>
    obtain ⟨h1, h2, h3⟩ := applyBooking_preserves room db r hroom hpos hinv
    simpa [applyBookings, List.foldl_cons] using ih (applyBooking db r) h1 h2 h3

/-- Witness for C3: on `dbC1` (inventory 10, 3 units booked on `[0, 4)`),
after two further sequential admissions of `rAskSeven` (7 units on
`[2, 6)`, of which only the first can succeed) the load at instant 3
stays within the inventory. -/
theorem sequential_admission_invariant_C3_witness :
    instSum (applyBookings dbC1 [rAskSeven, rAskSeven]).bookings 1 3 ≤ 10 :=
  sequential_admission_invariant_C3 { id := 1, quantity := 10 } dbC1
    [rAskSeven, rAskSeven] (by decide) (by decide)
    (by
      intro t
      by_cases h : (0 : Int) ≤ t ∧ t < 4 <;>
        simp [dbC1, instSum, qsum, containsB] <;>
        omega)
    3
